import Mathlib

/-!
Shallow embedding of `dir-size` (`src/lib.rs`) in Lean 4.

The library has two parts:
* a size aggregator (`get_size_in_bytes`, `get_dir_size`) walking the
  filesystem;
* a formatter (`convert_to_human_bytes`) rendering a byte count with
  binary unit prefixes.

Filesystem calls are modelled by an inductive tree `FsTree` recording, for
each path, what `symlink_metadata` / `DirEntry::metadata` and `read_dir`
would return there.  `u64` arithmetic is modelled on `Nat` with explicit
reduction modulo `2^64` wherever the Rust code adds or reads a `u64`.
-/

namespace DirSize

/-- `2^64`, the modulus of Rust `u64` arithmetic. -/
def U64 : Nat := 2 ^ 64

-- Unit constants from `src/lib.rs`.
def KIBIBYTE : Nat := 2 ^ 10
def MEBIBYTE : Nat := 2 ^ 20
def GIBIBYTE : Nat := 2 ^ 30
def TEBIBYTE : Nat := 2 ^ 40
def PEBIBYTE : Nat := 2 ^ 50
def EXBIBYTE : Nat := 2 ^ 60

/-- The `UNITS` table of `convert_to_human_bytes`: six ranges, each with its
bounds `(min_bytes, max_bytes)`, the abbreviated label and the full label. -/
def UNITS : List ((Nat × Nat) × String × String) :=
  [((1, KIBIBYTE), "B", "Bytes"),
   ((KIBIBYTE, MEBIBYTE), "K", "KiB"),
   ((MEBIBYTE, GIBIBYTE), "M", "MiB"),
   ((GIBIBYTE, TEBIBYTE), "G", "GiB"),
   ((TEBIBYTE, PEBIBYTE), "T", "TiB"),
   ((PEBIBYTE, EXBIBYTE), "P", "PiB")]

/-- The `for` loop of `convert_to_human_bytes`: scan the table in order and
return at the first range whose upper bound exceeds the size; after the loop,
fall through to the EiB formatting. -/
def convertUnits (size_in_bytes : Nat) (abbr : Bool) :
    List ((Nat × Nat) × String × String) → String
  | [] => toString (size_in_bytes / EXBIBYTE) ++ " " ++ (if abbr then "E" else "EiB")
  | ((min_bytes, max_bytes), abbr_unit, full_unit) :: rest =>
    if size_in_bytes < max_bytes then
      toString (size_in_bytes / min_bytes) ++ " " ++
        (if abbr then abbr_unit else full_unit)
    else
      convertUnits size_in_bytes abbr rest

/-- `convert_to_human_bytes` from `src/lib.rs`. -/
def convert_to_human_bytes (size_in_bytes : Nat) (abbr : Bool) : String :=
  convertUnits size_in_bytes abbr UNITS

/-!
## Filesystem model

`FsTree` records the outcome of the filesystem calls the Rust code makes at
one path.  The metadata query (`fs::symlink_metadata` at the top level,
`DirEntry::metadata` for entries — both non-following) either fails
(`statErr`) or classifies the entry as a regular file with a byte length
(`file`), a directory (`dir` / `dirErr`, according to whether `fs::read_dir`
on it succeeds), or anything else (`other`).  A successful `read_dir` yields
a list of collected records; a record that is itself `Err` is `none`.
Errors carry a `Nat` code so that unmodified propagation is observable. -/
inductive FsTree where
  | file (len : Nat)
  | dir (entries : List (Option FsTree))
  | dirErr (e : Nat)
  | other
  | statErr (e : Nat)
deriving Repr

mutual

/-- Sum of the `filter_map` contributions of the collected `read_dir`
records, with `u64` (wrapping) addition. -/
def dirSum : List (Option FsTree) → Nat
  | [] => 0
  | entry :: rest => (itemContrib entry + dirSum rest) % U64

/-- Contribution of one collected `read_dir` record: an `Err` record is
skipped by the `filter_map` (contributes nothing). -/
def itemContrib : Option FsTree → Nat
  | none => 0
  | some t => treeContrib t

/-- Contribution of one readable entry, following the `match` on
`entry.metadata()` in `get_dir_size`: a file contributes `meta.len()`, a
directory contributes `get_dir_size(&entry.path()).ok()` (zero when the
recursive call fails), everything else is skipped. -/
def treeContrib : FsTree → Nat
  | .file len => len % U64
  | .dir entries => dirSum entries
  | .dirErr _ => 0
  | .other => 0
  | .statErr _ => 0

end

/-- `fs::read_dir` at a path whose `FsTree` is `t`: succeeds with the
collected records only when the path is a readable directory. -/
def read_dir : FsTree → Except Nat (List (Option FsTree))
  | .dir entries => .ok entries
  | .dirErr e => .error e
  | .file _ => .error 0
  | .other => .error 0
  | .statErr e => .error e

/-- `get_dir_size` from `src/lib.rs`: `fs::read_dir(path)?`, then the
parallel `filter_map`/`sum` over the collected entries. -/
def get_dir_size (t : FsTree) : Except Nat Nat :=
  match read_dir t with
  | .error e => .error e
  | .ok entries => .ok (dirSum entries)

/-- `get_size_in_bytes` from `src/lib.rs`: `match fs::symlink_metadata(path)`
with guards `is_file`, `is_dir`, then the catch-all `Ok(0)`, and `Err` passed
through unmodified. -/
def get_size_in_bytes : FsTree → Except Nat Nat
  | .file len => .ok (len % U64)
  | .dir entries => get_dir_size (.dir entries)
  | .dirErr e => get_dir_size (.dirErr e)
  | .other => .ok 0
  | .statErr e => .error e

/-- `get_size_in_human_bytes` from `src/lib.rs`. -/
def get_size_in_human_bytes (t : FsTree) : Except Nat String :=
  (get_size_in_bytes t).map (fun n => convert_to_human_bytes n false)

/-- `get_size_in_abbr_human_bytes` from `src/lib.rs`. -/
def get_size_in_abbr_human_bytes (t : FsTree) : Except Nat String :=
  (get_size_in_bytes t).map (fun n => convert_to_human_bytes n true)

/-!
## Derived descriptions of the unit scan

`unitDivisor` and `unitLabel` restate the table scan of
`convert_to_human_bytes` as closed case analyses: the divisor is the lower
bound of the first range whose upper bound exceeds the size (`EXBIBYTE` when
no range matches), and the label is that range's label in the requested
style.  `convertUnits_shape` proves the scan equal to this description. -/
def unitDivisor (size : Nat) : Nat :=
  if size < KIBIBYTE then 1
  else if size < MEBIBYTE then KIBIBYTE
  else if size < GIBIBYTE then MEBIBYTE
  else if size < TEBIBYTE then GIBIBYTE
  else if size < PEBIBYTE then TEBIBYTE
  else if size < EXBIBYTE then PEBIBYTE
  else EXBIBYTE

/-- The unit label selected for `size`, abbreviated or full. -/
def unitLabel (size : Nat) (abbr : Bool) : String :=
  if size < KIBIBYTE then (if abbr then "B" else "Bytes")
  else if size < MEBIBYTE then (if abbr then "K" else "KiB")
  else if size < GIBIBYTE then (if abbr then "M" else "MiB")
  else if size < TEBIBYTE then (if abbr then "G" else "GiB")
  else if size < PEBIBYTE then (if abbr then "T" else "TiB")
  else if size < EXBIBYTE then (if abbr then "P" else "PiB")
  else (if abbr then "E" else "EiB")

theorem convertUnits_shape (s : Nat) (abbr : Bool) :
    convert_to_human_bytes s abbr =
      toString (s / unitDivisor s) ++ " " ++ unitLabel s abbr := by
  simp only [convert_to_human_bytes, UNITS, convertUnits, unitDivisor, unitLabel]
  split_ifs <;> rfl

-- Numeral forms of the unit constants, for `omega`.
theorem KIBIBYTE_eq : KIBIBYTE = 1024 := by norm_num [KIBIBYTE]
theorem MEBIBYTE_eq : MEBIBYTE = 1048576 := by norm_num [MEBIBYTE]
theorem GIBIBYTE_eq : GIBIBYTE = 1073741824 := by norm_num [GIBIBYTE]
theorem TEBIBYTE_eq : TEBIBYTE = 1099511627776 := by norm_num [TEBIBYTE]
theorem PEBIBYTE_eq : PEBIBYTE = 1125899906842624 := by norm_num [PEBIBYTE]
theorem EXBIBYTE_eq : EXBIBYTE = 1152921504606846976 := by norm_num [EXBIBYTE]

-- Which divisor and label the scan selects on each of the seven ranges.
theorem unit_select_B (s : Nat) (abbr : Bool) (h2 : s < KIBIBYTE) :
    unitDivisor s = 1 ∧ unitLabel s abbr = (if abbr then "B" else "Bytes") := by
  unfold unitDivisor unitLabel
  simp only [KIBIBYTE_eq, MEBIBYTE_eq, GIBIBYTE_eq, TEBIBYTE_eq, PEBIBYTE_eq, EXBIBYTE_eq] at *
  constructor <;> (split_ifs <;> rfl)

theorem unit_select_KiB (s : Nat) (abbr : Bool) (h1 : KIBIBYTE ≤ s) (h2 : s < MEBIBYTE) :
    unitDivisor s = KIBIBYTE ∧ unitLabel s abbr = (if abbr then "K" else "KiB") := by
  unfold unitDivisor unitLabel
  simp only [KIBIBYTE_eq, MEBIBYTE_eq, GIBIBYTE_eq, TEBIBYTE_eq, PEBIBYTE_eq, EXBIBYTE_eq] at *
  constructor <;> (split_ifs <;> first | rfl | omega)

theorem unit_select_MiB (s : Nat) (abbr : Bool) (h1 : MEBIBYTE ≤ s) (h2 : s < GIBIBYTE) :
    unitDivisor s = MEBIBYTE ∧ unitLabel s abbr = (if abbr then "M" else "MiB") := by
  unfold unitDivisor unitLabel
  simp only [KIBIBYTE_eq, MEBIBYTE_eq, GIBIBYTE_eq, TEBIBYTE_eq, PEBIBYTE_eq, EXBIBYTE_eq] at *
  constructor <;> (split_ifs <;> first | rfl | omega)

theorem unit_select_GiB (s : Nat) (abbr : Bool) (h1 : GIBIBYTE ≤ s) (h2 : s < TEBIBYTE) :
    unitDivisor s = GIBIBYTE ∧ unitLabel s abbr = (if abbr then "G" else "GiB") := by
  unfold unitDivisor unitLabel
  simp only [KIBIBYTE_eq, MEBIBYTE_eq, GIBIBYTE_eq, TEBIBYTE_eq, PEBIBYTE_eq, EXBIBYTE_eq] at *
  constructor <;> (split_ifs <;> first | rfl | omega)

theorem unit_select_TiB (s : Nat) (abbr : Bool) (h1 : TEBIBYTE ≤ s) (h2 : s < PEBIBYTE) :
    unitDivisor s = TEBIBYTE ∧ unitLabel s abbr = (if abbr then "T" else "TiB") := by
  unfold unitDivisor unitLabel
  simp only [KIBIBYTE_eq, MEBIBYTE_eq, GIBIBYTE_eq, TEBIBYTE_eq, PEBIBYTE_eq, EXBIBYTE_eq] at *
  constructor <;> (split_ifs <;> first | rfl | omega)

theorem unit_select_PiB (s : Nat) (abbr : Bool) (h1 : PEBIBYTE ≤ s) (h2 : s < EXBIBYTE) :
    unitDivisor s = PEBIBYTE ∧ unitLabel s abbr = (if abbr then "P" else "PiB") := by
  unfold unitDivisor unitLabel
  simp only [KIBIBYTE_eq, MEBIBYTE_eq, GIBIBYTE_eq, TEBIBYTE_eq, PEBIBYTE_eq, EXBIBYTE_eq] at *
  constructor <;> (split_ifs <;> first | rfl | omega)

theorem unit_select_EiB (s : Nat) (abbr : Bool) (h1 : EXBIBYTE ≤ s) :
    unitDivisor s = EXBIBYTE ∧ unitLabel s abbr = (if abbr then "E" else "EiB") := by
  unfold unitDivisor unitLabel
  simp only [KIBIBYTE_eq, MEBIBYTE_eq, GIBIBYTE_eq, TEBIBYTE_eq, PEBIBYTE_eq, EXBIBYTE_eq] at *
  constructor <;> (split_ifs <;> first | rfl | omega)

/-!
## Helper lemmas about the directory sum
-/

theorem U64_eq : U64 = 18446744073709551616 := by norm_num [U64]

theorem dirSum_eq_sum_mod (l : List (Option FsTree)) :
    dirSum l = (l.map itemContrib).sum % U64 := by
  induction l with
  | nil => rfl
  | cons e rest ih =>
    simp only [dirSum, ih, List.map_cons, List.sum_cons, U64_eq]
    omega

theorem dirSum_perm {l l' : List (Option FsTree)} (h : l.Perm l') :
    dirSum l = dirSum l' := by
  rw [dirSum_eq_sum_mod, dirSum_eq_sum_mod, (h.map itemContrib).sum_eq]

theorem dirSum_files (lens : List Nat) (h : lens.sum < U64) :
    dirSum (lens.map fun l => some (FsTree.file l)) = lens.sum := by
  rw [dirSum_eq_sum_mod]
  have hmap : (lens.map fun l => some (FsTree.file l)).map itemContrib = lens := by
    rw [List.map_map]
    have h1 : ∀ l ∈ lens, (itemContrib ∘ fun l => some (FsTree.file l)) l = id l := by
      intro l hl
      have hle : l ≤ lens.sum := List.single_le_sum (fun x _ => Nat.zero_le x) l hl
      simp only [Function.comp, itemContrib, treeContrib, id]
      exact Nat.mod_eq_of_lt (lt_of_le_of_lt hle h)
    rw [List.map_congr_left h1, List.map_id]
  rw [hmap]
  exact Nat.mod_eq_of_lt h

theorem string_append_assoc (a b c : String) : a ++ b ++ c = a ++ (b ++ c) := by
  cases a; cases b; cases c
  show String.append (String.append _ _) _ = String.append _ (String.append _ _)
  simp [String.append]

/-!
## Claims about the formatter
-/

/-- C1: at every unit boundary `b ∈ {1024, 1024², …, 1024⁶}` the formatter
renders `b-1` with the unit just below `b`'s unit and quotient `1023`, and
`b` with exactly `b`'s unit and quotient `1`, in both label styles; moreover
on each half-open range between consecutive powers of 1024 the selected unit
is constant and the quotient is the size divided by that range's lower
bound, so label transitions occur precisely at powers of 1024, never earlier
or later. -/
theorem C1_boundary_transitions :
    ((convert_to_human_bytes (KIBIBYTE - 1) false = "1023 Bytes" ∧
      convert_to_human_bytes KIBIBYTE false = "1 KiB" ∧
      convert_to_human_bytes (MEBIBYTE - 1) false = "1023 KiB" ∧
      convert_to_human_bytes MEBIBYTE false = "1 MiB" ∧
      convert_to_human_bytes (GIBIBYTE - 1) false = "1023 MiB" ∧
      convert_to_human_bytes GIBIBYTE false = "1 GiB" ∧
      convert_to_human_bytes (TEBIBYTE - 1) false = "1023 GiB" ∧
      convert_to_human_bytes TEBIBYTE false = "1 TiB" ∧
      convert_to_human_bytes (PEBIBYTE - 1) false = "1023 TiB" ∧
      convert_to_human_bytes PEBIBYTE false = "1 PiB" ∧
      convert_to_human_bytes (EXBIBYTE - 1) false = "1023 PiB" ∧
      convert_to_human_bytes EXBIBYTE false = "1 EiB") ∧
     (convert_to_human_bytes (KIBIBYTE - 1) true = "1023 B" ∧
      convert_to_human_bytes KIBIBYTE true = "1 K" ∧
      convert_to_human_bytes (MEBIBYTE - 1) true = "1023 K" ∧
      convert_to_human_bytes MEBIBYTE true = "1 M" ∧
      convert_to_human_bytes (GIBIBYTE - 1) true = "1023 M" ∧
      convert_to_human_bytes GIBIBYTE true = "1 G" ∧
      convert_to_human_bytes (TEBIBYTE - 1) true = "1023 G" ∧
      convert_to_human_bytes TEBIBYTE true = "1 T" ∧
      convert_to_human_bytes (PEBIBYTE - 1) true = "1023 T" ∧
      convert_to_human_bytes PEBIBYTE true = "1 P" ∧
      convert_to_human_bytes (EXBIBYTE - 1) true = "1023 P" ∧
      convert_to_human_bytes EXBIBYTE true = "1 E")) ∧
    ((∀ s abbr, s < KIBIBYTE →
        convert_to_human_bytes s abbr = toString s ++ " " ++ (if abbr then "B" else "Bytes")) ∧
     (∀ s abbr, KIBIBYTE ≤ s → s < MEBIBYTE →
        convert_to_human_bytes s abbr =
          toString (s / KIBIBYTE) ++ " " ++ (if abbr then "K" else "KiB")) ∧
     (∀ s abbr, MEBIBYTE ≤ s → s < GIBIBYTE →
        convert_to_human_bytes s abbr =
          toString (s / MEBIBYTE) ++ " " ++ (if abbr then "M" else "MiB")) ∧
     (∀ s abbr, GIBIBYTE ≤ s → s < TEBIBYTE →
        convert_to_human_bytes s abbr =
          toString (s / GIBIBYTE) ++ " " ++ (if abbr then "G" else "GiB")) ∧
     (∀ s abbr, TEBIBYTE ≤ s → s < PEBIBYTE →
        convert_to_human_bytes s abbr =
          toString (s / TEBIBYTE) ++ " " ++ (if abbr then "T" else "TiB")) ∧
     (∀ s abbr, PEBIBYTE ≤ s → s < EXBIBYTE →
        convert_to_human_bytes s abbr =
          toString (s / PEBIBYTE) ++ " " ++ (if abbr then "P" else "PiB")) ∧
     (∀ s abbr, EXBIBYTE ≤ s →
        convert_to_human_bytes s abbr =
          toString (s / EXBIBYTE) ++ " " ++ (if abbr then "E" else "EiB"))) := by
  refine ⟨⟨by decide, by decide⟩, ?_, ?_, ?_, ?_, ?_, ?_, ?_⟩
  · intro s abbr h2
    rw [convertUnits_shape, (unit_select_B s abbr h2).1, (unit_select_B s abbr h2).2,
      Nat.div_one]
  · intro s abbr h1 h2
    rw [convertUnits_shape, (unit_select_KiB s abbr h1 h2).1, (unit_select_KiB s abbr h1 h2).2]
  · intro s abbr h1 h2
    rw [convertUnits_shape, (unit_select_MiB s abbr h1 h2).1, (unit_select_MiB s abbr h1 h2).2]
  · intro s abbr h1 h2
    rw [convertUnits_shape, (unit_select_GiB s abbr h1 h2).1, (unit_select_GiB s abbr h1 h2).2]
  · intro s abbr h1 h2
    rw [convertUnits_shape, (unit_select_TiB s abbr h1 h2).1, (unit_select_TiB s abbr h1 h2).2]
  · intro s abbr h1 h2
    rw [convertUnits_shape, (unit_select_PiB s abbr h1 h2).1, (unit_select_PiB s abbr h1 h2).2]
  · intro s abbr h1
    rw [convertUnits_shape, (unit_select_EiB s abbr h1).1, (unit_select_EiB s abbr h1).2]

theorem C1_boundary_transitions_witness :
    KIBIBYTE ≤ 2048 ∧ 2048 < MEBIBYTE ∧
    convert_to_human_bytes 2048 false =
      toString (2048 / KIBIBYTE) ++ " " ++ (if false then "K" else "KiB") :=
  ⟨by decide, by decide, C1_boundary_transitions.2.2.1 2048 false (by decide) (by decide)⟩

/-- C5: every size in `[0, 1024)` is formatted as the decimal rendering of
the size itself, followed by one space and `Bytes` (full style) or `B`
(abbreviated style). -/
theorem C5_small_sizes (s : Nat) (h : s < 1024) :
    convert_to_human_bytes s false = toString s ++ " Bytes" ∧
    convert_to_human_bytes s true = toString s ++ " B" := by
  have hk : s < KIBIBYTE := by rw [KIBIBYTE_eq]; omega
  constructor
  · rw [convertUnits_shape, (unit_select_B s false hk).1, (unit_select_B s false hk).2,
      Nat.div_one, string_append_assoc]
    rfl
  · rw [convertUnits_shape, (unit_select_B s true hk).1, (unit_select_B s true hk).2,
      Nat.div_one, string_append_assoc]
    rfl

theorem C5_small_sizes_witness :
    7 < 1024 ∧ (convert_to_human_bytes 7 false = toString 7 ++ " Bytes" ∧
      convert_to_human_bytes 7 true = toString 7 ++ " B") :=
  ⟨by decide, C5_small_sizes 7 (by decide)⟩

/-- C6: every size at or above `1 EiB = 2^60` is formatted by dividing by
the EiB divisor and appending the EiB label, unconditionally, in both label
styles. -/
theorem C6_exbibyte_tail (s : Nat) (abbr : Bool) (h : EXBIBYTE ≤ s) :
    convert_to_human_bytes s abbr =
      toString (s / EXBIBYTE) ++ " " ++ (if abbr then "E" else "EiB") := by
  rw [convertUnits_shape, (unit_select_EiB s abbr h).1, (unit_select_EiB s abbr h).2]

theorem C6_exbibyte_tail_witness :
    EXBIBYTE ≤ 2 ^ 61 ∧ convert_to_human_bytes (2 ^ 61) false =
      toString (2 ^ 61 / EXBIBYTE) ++ " " ++ (if false then "E" else "EiB") :=
  ⟨by decide, C6_exbibyte_tail (2 ^ 61) false (by decide)⟩

/-- C7: for every size and both label styles the output is exactly the
decimal rendering of the truncating quotient of the size by the selected
unit's lower bound, a single space, and the unit label — never a fractional
rendering; in particular every size in `[1 MiB, 2 MiB)` formats (full style)
to exactly `"1 MiB"`. -/
theorem C7_output_shape :
    (∀ s abbr, convert_to_human_bytes s abbr =
        toString (s / unitDivisor s) ++ " " ++ unitLabel s abbr) ∧
    (∀ s, MEBIBYTE ≤ s → s < 2 * MEBIBYTE →
        convert_to_human_bytes s false = "1 MiB") := by
  refine ⟨convertUnits_shape, fun s h1 h2 => ?_⟩
  have hg : s < GIBIBYTE := by rw [GIBIBYTE_eq]; rw [MEBIBYTE_eq] at h2; omega
  rw [convertUnits_shape, (unit_select_MiB s false h1 hg).1, (unit_select_MiB s false h1 hg).2]
  have hq : s / MEBIBYTE = 1 := by
    rw [MEBIBYTE_eq] at h1 h2 ⊢
    omega
  rw [hq]
  rfl

theorem C7_output_shape_witness :
    MEBIBYTE ≤ 1500000 ∧ 1500000 < 2 * MEBIBYTE ∧
    convert_to_human_bytes 1500000 false = "1 MiB" :=
  ⟨by decide, by decide, C7_output_shape.2 1500000 (by decide) (by decide)⟩

/-- C9: for every `u64` size (below `2^64`) and both label styles, the
numeric portion of the output is a quotient of at most `1023`; moreover at
or above `1 EiB` the EiB quotient is at most `15`. -/
theorem C9_quotient_bound (s : Nat) (abbr : Bool) (h : s < U64) :
    (∃ q lbl, convert_to_human_bytes s abbr = toString q ++ " " ++ lbl ∧ q ≤ 1023) ∧
    (EXBIBYTE ≤ s → s / EXBIBYTE ≤ 15) := by
  constructor
  · refine ⟨s / unitDivisor s, unitLabel s abbr, convertUnits_shape s abbr, ?_⟩
    unfold unitDivisor
    rw [U64_eq] at h
    simp only [KIBIBYTE_eq, MEBIBYTE_eq, GIBIBYTE_eq, TEBIBYTE_eq, PEBIBYTE_eq, EXBIBYTE_eq]
    split_ifs <;> omega
  · intro hE
    rw [U64_eq] at h
    rw [EXBIBYTE_eq] at hE ⊢
    omega

theorem C9_quotient_bound_witness :
    5000 < U64 ∧
    ((∃ q lbl, convert_to_human_bytes 5000 true = toString q ++ " " ++ lbl ∧ q ≤ 1023) ∧
     (EXBIBYTE ≤ 5000 → 5000 / EXBIBYTE ≤ 15)) :=
  ⟨by decide, C9_quotient_bound 5000 true (by decide)⟩

/-!
## Claims about the size aggregator
-/

/-- C2: when a directory's own listing succeeds, `get_dir_size` never
returns an error; an entry whose directory-read record is `Err`, an entry
whose metadata query fails, and a subdirectory whose recursive size
computation fails each contribute exactly zero; and a directory holding one
unreadable subdirectory next to readable files totals exactly the files'
sizes, without error. -/
theorem C2_partial_failure_tolerance :
    (∀ entries : List (Option FsTree), ∃ n, get_dir_size (.dir entries) = .ok n) ∧
    itemContrib none = 0 ∧
    (∀ e, itemContrib (some (.statErr e)) = 0) ∧
    (∀ e, itemContrib (some (.dirErr e)) = 0) ∧
    (∀ e (lens : List Nat), lens.sum < U64 →
      get_dir_size (.dir (some (.dirErr e) :: lens.map fun l => some (.file l))) =
        .ok lens.sum) := by
  refine ⟨fun entries => ⟨dirSum entries, rfl⟩, rfl, fun e => rfl, fun e => rfl,
    fun e lens h => ?_⟩
  show Except.ok (dirSum _) = _
  rw [show dirSum (some (.dirErr e) :: lens.map fun l => some (.file l)) =
      (itemContrib (some (.dirErr e)) + dirSum (lens.map fun l => some (.file l))) % U64
    from rfl]
  rw [dirSum_files lens h]
  show Except.ok ((0 + lens.sum) % U64) = _
  rw [Nat.zero_add, Nat.mod_eq_of_lt h]

theorem C2_partial_failure_tolerance_witness :
    ([500, 1524] : List Nat).sum < U64 ∧
    get_dir_size (.dir (some (.dirErr 13) :: ([500, 1524] : List Nat).map fun l =>
      some (.file l))) = .ok ([500, 1524] : List Nat).sum :=
  ⟨by decide, C2_partial_failure_tolerance.2.2.2.2 13 [500, 1524] (by decide)⟩

/-- C3: `get_size_in_bytes` returns an error exactly when the top-level
metadata query fails or the top-level path is a directory whose own listing
fails, and in both cases the underlying error code is passed through
unmodified; no other shape of input produces an error. -/
theorem C3_error_iff (t : FsTree) (e : Nat) :
    get_size_in_bytes t = .error e ↔ (t = .statErr e ∨ t = .dirErr e) := by
  cases t <;> simp [get_size_in_bytes, get_dir_size, read_dir]

/-- C4: when the top-level non-following metadata query succeeds,
`get_size_in_bytes` returns the metadata byte length for a regular file, the
recursive directory size for a directory (the listing's wrapped sum when the
listing succeeds), and zero for every other entry kind — the non-file,
non-directory case (symlink, device, socket) is never followed and never
recursed into. -/
theorem C4_classification :
    (∀ len, len < U64 → get_size_in_bytes (.file len) = .ok len) ∧
    (∀ entries, get_size_in_bytes (.dir entries) = get_dir_size (.dir entries)) ∧
    (∀ entries, get_size_in_bytes (.dir entries) = .ok (dirSum entries)) ∧
    (∀ e, get_size_in_bytes (.dirErr e) = get_dir_size (.dirErr e)) ∧
    get_size_in_bytes .other = .ok 0 :=
  ⟨fun len h => by simp [get_size_in_bytes, Nat.mod_eq_of_lt h],
   fun entries => rfl, fun entries => rfl, fun e => rfl, rfl⟩

theorem C4_classification_witness : get_size_in_bytes (.file 42) = .ok 42 :=
  C4_classification.1 42 (by decide)

/-- C8: a directory containing only regular files totals exactly the sum of
the files' byte lengths (when that sum fits in a `u64`), and the total is
invariant under any permutation of the directory's entries — the aggregate
is a commutative sum of independent per-entry contributions, so it does not
depend on traversal order or scheduling. -/
theorem C8_additivity_perm (lens : List Nat) (h : lens.sum < U64) :
    get_size_in_bytes (.dir (lens.map fun l => some (.file l))) = .ok lens.sum ∧
    ∀ entries : List (Option FsTree),
      (lens.map fun l => some (FsTree.file l)).Perm entries →
        get_size_in_bytes (.dir entries) = .ok lens.sum := by
  constructor
  · show Except.ok (dirSum _) = _
    rw [dirSum_files lens h]
  · intro entries hperm
    show Except.ok (dirSum entries) = _
    rw [← dirSum_perm hperm, dirSum_files lens h]

theorem C8_additivity_perm_witness :
    ([500, 1524, 100] : List Nat).sum < U64 ∧
    get_size_in_bytes (.dir (([500, 1524, 100] : List Nat).map fun l => some (.file l))) =
      .ok ([500, 1524, 100] : List Nat).sum :=
  ⟨by decide, (C8_additivity_perm [500, 1524, 100] (by decide)).1⟩

/-- C10: `get_dir_size` on a readable directory returns the sum of the
per-entry contributions reduced modulo `2^64` — unchecked `u64`
accumulation, no error and no saturation — so two files of `2^63` bytes each
total `0`. -/
theorem C10_wrapping_sum :
    (∀ entries : List (Option FsTree),
      get_dir_size (.dir entries) = .ok ((entries.map itemContrib).sum % U64)) ∧
    get_dir_size (.dir [some (.file (2 ^ 63)), some (.file (2 ^ 63))]) = .ok 0 := by
  constructor
  · intro entries
    show Except.ok (dirSum entries) = _
    rw [dirSum_eq_sum_mod]
  · show Except.ok (dirSum _) = _
    rw [dirSum_eq_sum_mod]
    rfl

end DirSize
